import Mathlib

/-!
Shallow embedding of the AIS dry-bulk vessel collector
(`analyze_ais_data.py`, class `AISDataCollector`): the dimension-based
DWT estimator, the vessel profile store and its static-data merge, the
target classifier, the position-report observation collector, and the
CSV merge/append engine (`save_data`).

Modelling conventions:
* Python floats (coordinates, draught, the DWT factor arithmetic) are
  modelled as exact rationals `ℚ`; Python `int(...)` truncation of the
  positive product in the estimator is `Int.floor`.
* Python truthiness on optional numbers (`if x:` for `None`/`0`) is the
  explicit `truthy_int` / `truthy_rat` below; truthiness of strings after
  `.strip()` is non-emptiness after `py_strip` (whitespace stripping).
* A vessel dict is the structure `VesselProfile`; dictionary keys that
  may be missing but are only ever read through `.get` with a fixed
  default (`'Unknown'`, `{}`, `None`) are stored as that default, which
  is read-equivalent to the Python dict.
* The durable CSV is `CsvState`: absent, unreadable (`pd.read_csv`
  raises, the `except` path of `save_data`), or a readable list of
  records.  CSV serialisation is abstracted away: a readable store
  round-trips the records as written.
* The pandas dedup step is modelled at the documented semantics of the
  library calls it makes: `new_df.merge(existing[cols], on=cols,
  how='left', indicator=True)` produces, per left row in order, one
  output row per matching existing row ('both'), or a single
  'left_only' row when there is no match; the boolean mask
  `merged['_merge'] == 'left_only'` (index `0..m-1`) is then aligned by
  `new_df[mask]` onto `new_df`'s index `0..n-1` (`check_bool_indexer`
  reindexes the mask, i.e. keeps its first `n` entries, `m ≥ n`).  This
  is `merge_indicator` / `truly_new` below.
-/

namespace AIS

/-- Python truthiness of an optional integer: `None` and `0` are falsy. -/
def truthy_int (o : Option Int) : Bool :=
  match o with
  | none => false
  | some v => v != 0

/-- Python truthiness of an optional float: `None` and `0.0` are falsy. -/
def truthy_rat (o : Option ℚ) : Bool :=
  match o with
  | none => false
  | some v => v != 0

/-- Python `str.strip()`: drop leading and trailing whitespace.  (Defined
over the character list so that it evaluates in the kernel.) -/
def py_strip (s : String) : String :=
  String.mk (((s.data.dropWhile Char.isWhitespace).reverse.dropWhile Char.isWhitespace).reverse)

/-- `(incoming or '').strip() or stored` — the string-field merge pattern of
`process_static_data`: keep the stored value unless the incoming value is
present and non-blank after stripping. -/
def str_merge (incoming : Option String) (stored : String) : String :=
  let t := py_strip (incoming.getD "")
  if t = "" then stored else t

/-- `incoming or stored` for optional integers (`0` does not overwrite). -/
def int_merge (incoming stored : Option Int) : Option Int :=
  if truthy_int incoming then incoming else stored

/-- `incoming or stored` for optional floats (`0.0` does not overwrite). -/
def rat_merge (incoming stored : Option ℚ) : Option ℚ :=
  if truthy_rat incoming then incoming else stored

/-- The `Dimension` dict of a static-data message: edge offsets `A`, `B`
(longitudinal) and `C`, `D` (transverse), each read with
`dimensions.get(key, 0)`. -/
structure Dims where
  A : Option Int
  B : Option Int
  C : Option Int
  D : Option Int
deriving DecidableEq

/-- `dimensions.get('A', 0) + dimensions.get('B', 0)`. -/
def Dims.hullLength (d : Dims) : Int := d.A.getD 0 + d.B.getD 0

/-- `dimensions.get('C', 0) + dimensions.get('D', 0)`. -/
def Dims.hullWidth (d : Dims) : Int := d.C.getD 0 + d.D.getD 0

/-- The length-bracket cargo coefficient of `estimate_dwt_from_dimensions`. -/
def dwt_factor (hullLength : Int) : ℚ :=
  if hullLength < 150 then 0.75
  else if hullLength < 200 then 0.80
  else if hullLength < 250 then 0.85
  else 0.90

/-- `AISDataCollector.estimate_dwt_from_dimensions`: reject degenerate
dimensions, otherwise floor of the volumetric proxy, clamped to
`[10000, 400000]` by `max(10000, min(400000, ·))`. -/
def estimate_dwt_from_dimensions (dims : Dims) : Option Int :=
  let hullLength := dims.hullLength
  let hullWidth := dims.hullWidth
  if hullLength ≤ 0 ∨ hullWidth ≤ 0 then none
  else
    let estimated_dwt : Int := Rat.floor ((hullLength * hullWidth * 12 : ℚ) * dwt_factor hullLength)
    some (max 10000 (min 400000 estimated_dwt))

/-- A vessel dict of `self.vessel_database`. -/
structure VesselProfile where
  mmsi : String
  name : String
  call_sign : String
  imo_number : Option Int
  ship_type : Option Int
  dimensions : Option Dims
  destination : String
  max_draught : Option ℚ
  estimated_dwt : Option Int
  last_static_update : Nat
deriving DecidableEq

/-- Collector configuration: the DWT band and the dry-bulk ship-type
allow-set (`self.dry_bulk_types = {70, 71, 72, 73, 74, 79}`). -/
structure Config where
  dwt_min : Int
  dwt_max : Int
  dry_bulk_types : List Int

/-- The configuration the script constructs by default. -/
def default_config : Config :=
  { dwt_min := 40000, dwt_max := 100000, dry_bulk_types := [70, 71, 72, 73, 74, 79] }

/-- `AISDataCollector.is_target_vessel`: reject on a truthy ship type
outside the allow-set; else range-check a truthy estimated DWT; else
accept. -/
def is_target_vessel (cfg : Config) (vessel : VesselProfile) : Bool :=
  if truthy_int vessel.ship_type && !(cfg.dry_bulk_types.contains (vessel.ship_type.getD 0)) then
    false
  else if truthy_int vessel.estimated_dwt then
    decide (cfg.dwt_min ≤ vessel.estimated_dwt.getD 0 ∧ vessel.estimated_dwt.getD 0 ≤ cfg.dwt_max)
  else
    true

/-- The fields of a decoded `ShipStaticData` message that
`process_static_data` reads (`static_data.get(...)`).  The AIS key
`Type` is called `shipType` here because `Type` is reserved in Lean. -/
structure StaticMsg where
  userID : Option Int
  name : Option String
  callSign : Option String
  imoNumber : Option Int
  shipType : Option Int
  dimension : Option Dims
  destination : Option String
  maximumStaticDraught : Option ℚ

/-- A static-data message with every field absent. -/
def empty_static : StaticMsg :=
  { userID := none, name := none, callSign := none, imoNumber := none, shipType := none,
    dimension := none, destination := none, maximumStaticDraught := none }

/-- The `Metadata` block of a stream message. -/
structure Metadata where
  mmsi : Option Int
  shipName : Option String

/-- The fields of a decoded `PositionReport` message that
`process_position_report` reads. -/
structure PositionMsg where
  userID : Option Int
  latitude : Option ℚ
  longitude : Option ℚ
  sog : Option ℚ
  cog : Option ℚ
  trueHeading : Option Int
  navigationalStatus : Option Int
  rateOfTurn : Option Int
  positionAccuracy : Option Bool

/-- `str(msg.get('UserID') or metadata.get('MMSI', ''))` followed by
`if not mmsi: return` — `none` is the empty-string / early-return case. -/
def resolve_mmsi (uid : Option Int) (meta : Metadata) : Option String :=
  if truthy_int uid then some (toString (uid.getD 0))
  else
    match meta.mmsi with
    | some m => some (toString m)
    | none => none

/-- The vessel dict read-equivalent to Python's empty dict `{}`, the
base of `self.vessel_database.get(mmsi, {})`: every key is read through
`.get` with these defaults. -/
def empty_vessel : VesselProfile :=
  { mmsi := "", name := "Unknown", call_sign := "Unknown", imo_number := none, ship_type := none,
    dimensions := none, destination := "Unknown", max_draught := none, estimated_dwt := none,
    last_static_update := 0 }

/-- The stub profile `process_position_report` inserts for an unseen
identifier: `{'mmsi': mmsi, 'name': metadata.get('ShipName', 'Unknown'),
'ship_type': None, 'estimated_dwt': None}` (missing keys are their read
defaults). -/
def stub_vessel (mmsi name : String) : VesselProfile :=
  { mmsi := mmsi, name := name, call_sign := "Unknown", imo_number := none, ship_type := none,
    dimensions := none, destination := "Unknown", max_draught := none, estimated_dwt := none,
    last_static_update := 0 }

/-- `static_data.get('Dimension') or vessel.get('dimensions', {})`:
the dimensions dict after the merge (`none` is the falsy absent/empty
dict). -/
def merged_dims (s : StaticMsg) (old : VesselProfile) : Option Dims :=
  match s.dimension with
  | some d => some d
  | none => old.dimensions

/-- The `vessel.update({...})` block of `process_static_data` followed by
the conditional DWT re-estimation: merge the incoming static fields into
the stored profile (present, non-empty / non-zero values overwrite), then,
if the (new) dimensions dict is truthy and the estimator produces a truthy
value, overwrite `estimated_dwt` with it. -/
def update_vessel (old : VesselProfile) (mmsi : String) (s : StaticMsg) (now : Nat) :
    VesselProfile :=
  let dims := merged_dims s old
  let v : VesselProfile :=
    { mmsi := mmsi
      name := str_merge s.name old.name
      call_sign := str_merge s.callSign old.call_sign
      imo_number := int_merge s.imoNumber old.imo_number
      ship_type := int_merge s.shipType old.ship_type
      dimensions := dims
      destination := str_merge s.destination old.destination
      max_draught := rat_merge s.maximumStaticDraught old.max_draught
      estimated_dwt := old.estimated_dwt
      last_static_update := now }
  match dims with
  | none => v
  | some d =>
      let e := estimate_dwt_from_dimensions d
      if truthy_int e then { v with estimated_dwt := e } else v

/-- An Observation: one row of `self.collected_data` as built by
`process_position_report`. -/
structure Record where
  timestamp : Nat
  mmsi : String
  vessel_name : String
  latitude : ℚ
  longitude : ℚ
  speed_knots : ℚ
  course_degrees : ℚ
  heading_degrees : Option Int
  navigation_status : Option Int
  ship_type : Option Int
  estimated_dwt : Option Int
  call_sign : String
  destination : String
  rate_of_turn : Option Int
  position_accuracy : Bool
  imo_number : Option Int
  max_draught : Option ℚ
deriving DecidableEq

/-- The dedup key `(mmsi, timestamp, latitude, longitude)`. -/
def rec_key (r : Record) : String × Nat × ℚ × ℚ :=
  (r.mmsi, r.timestamp, r.latitude, r.longitude)

/-- The record dict built by `process_position_report` once the
coordinates are known to be present (the code builds it with the raw
optional coordinates and drops it before use when either is `None`). -/
def mk_record (now : Nat) (mmsi : String) (vessel : VesselProfile) (pos : PositionMsg)
    (lat lon : ℚ) : Record :=
  { timestamp := now, mmsi := mmsi, vessel_name := vessel.name, latitude := lat, longitude := lon,
    speed_knots := pos.sog.getD 0, course_degrees := pos.cog.getD 0,
    heading_degrees := pos.trueHeading, navigation_status := pos.navigationalStatus,
    ship_type := vessel.ship_type, estimated_dwt := vessel.estimated_dwt,
    call_sign := vessel.call_sign, destination := vessel.destination,
    rate_of_turn := pos.rateOfTurn, position_accuracy := pos.positionAccuracy.getD false,
    imo_number := vessel.imo_number, max_draught := vessel.max_draught }

/-- Session state: the in-memory profile store `self.vessel_database`
and the accumulation buffer `self.collected_data`. -/
structure CollectorState where
  vessel_database : String → Option VesselProfile
  collected_data : List Record

/-- `AISDataCollector.process_static_data`: resolve the identifier (drop
the event when unresolvable), merge into the stored (or empty) profile,
store the result. -/
def process_static_data (st : CollectorState) (s : StaticMsg) (meta : Metadata) (now : Nat) :
    CollectorState :=
  match resolve_mmsi s.userID meta with
  | none => st
  | some mmsi =>
      let vessel := update_vessel ((st.vessel_database mmsi).getD empty_vessel) mmsi s now
      { st with vessel_database := fun k => if k = mmsi then some vessel else st.vessel_database k }

/-- `AISDataCollector.process_position_report`: resolve the identifier,
ensure a (possibly stub) profile is stored, classify, validate
coordinates, and only then append an observation to the buffer.
Re-storing an already-present profile unchanged is extensionally the
Python `if mmsi not in db: db[mmsi] = stub`. -/
def process_position_report (cfg : Config) (st : CollectorState) (pos : PositionMsg)
    (meta : Metadata) (now : Nat) : CollectorState :=
  match resolve_mmsi pos.userID meta with
  | none => st
  | some mmsi =>
      let vessel := (st.vessel_database mmsi).getD
        (stub_vessel mmsi (meta.shipName.getD "Unknown"))
      let st' : CollectorState :=
        { vessel_database := fun k => if k = mmsi then some vessel else st.vessel_database k,
          collected_data := st.collected_data }
      if !(is_target_vessel cfg vessel) then st'
      else
        match pos.latitude, pos.longitude with
        | some lat, some lon =>
            if 90 < |lat| ∨ 180 < |lon| then st'
            else { st' with
                    collected_data := st'.collected_data ++ [mk_record now mmsi vessel pos lat lon] }
        | _, _ => st'

/-- The durable CSV store: not yet created, existing but unreadable
(`pd.read_csv` raises), or readable with the given rows. -/
inductive CsvState where
  | absent : CsvState
  | corrupt : CsvState
  | ok : List Record → CsvState
deriving DecidableEq

/-- Number of durable observation rows. -/
def csv_count : CsvState → Nat
  | CsvState.ok rows => rows.length
  | _ => 0

/-- Occurrences of a dedup key among a list of records
(`existing_df[merge_cols]` row matches). -/
def count_key (rows : List Record) (k : String × Nat × ℚ × ℚ) : Nat :=
  rows.countP (fun e => decide (rec_key e = k))

/-- The `_merge` indicator column of
`new_df.merge(existing_df[merge_cols], on=merge_cols, how='left',
indicator=True)`, as a list of booleans (`true` = `'left_only'`): per
left row in order, one `'both'` entry per matching existing row, or a
single `'left_only'` entry when there is no match. -/
def merge_indicator (existing new_rows : List Record) : List Bool :=
  (new_rows.map (fun r =>
    if count_key existing (rec_key r) = 0 then [true]
    else List.replicate (count_key existing (rec_key r)) false)).flatten

/-- `truly_new = new_df[merged['_merge'] == 'left_only']`: the boolean
mask over the merged frame is aligned onto `new_df`'s index, i.e. its
first `len(new_df)` entries select rows of `new_df` (`List.zip`
truncates to the left length; the indicator is never shorter). -/
def truly_new (existing new_rows : List Record) : List Record :=
  ((new_rows.zip (merge_indicator existing new_rows)).filter (fun p => p.2)).map (fun p => p.1)

/-- `AISDataCollector.save_data`, restricted to the observation CSV (the
vessel-database JSON snapshot it also rewrites carries no observation
rows).  Returns the new store state and whether the corrupt-store
warning was logged.  An empty buffer is a no-op; an absent store is
created from the buffer; an unreadable store is overwritten by the
buffer with a warning; otherwise only the `truly_new` rows are appended. -/
def save_data (buffer : List Record) (csv : CsvState) : CsvState × Bool :=
  if buffer.isEmpty then (csv, false)
  else
    match csv with
    | CsvState.ok existing =>
        let tn := truly_new existing buffer
        if 0 < tn.length then (CsvState.ok (existing ++ tn), false)
        else (CsvState.ok existing, false)
    | CsvState.corrupt => (CsvState.ok buffer, true)
    | CsvState.absent => (CsvState.ok buffer, false)

/-- The buffer/store dedup keys are pairwise distinct. -/
def KeysDistinct (rows : List Record) : Prop :=
  (rows.map rec_key).Nodup

instance (rows : List Record) : Decidable (KeysDistinct rows) :=
  List.nodupDecidable _

/-- The readable store, if any, has pairwise distinct dedup keys. -/
def CsvKeysDistinct : CsvState → Prop
  | CsvState.ok rows => KeysDistinct rows
  | _ => True

/-- A concrete observation used in counterexamples and witnesses; only
the dedup-key fields vary. -/
def sample_record (m : String) (t : Nat) : Record :=
  { timestamp := t, mmsi := m, vessel_name := "Unknown", latitude := 0, longitude := 0,
    speed_knots := 0, course_degrees := 0, heading_degrees := none, navigation_status := none,
    ship_type := none, estimated_dwt := none, call_sign := "Unknown", destination := "Unknown",
    rate_of_turn := none, position_accuracy := false, imo_number := none, max_draught := none }

/-- Modelled from the spec: the §4.3 ordered classification policy as the
spec words it, including its rule 3 — "If capacity is unknown but
dimensions are present → compute an estimate via 4.1; if produced, accept
iff within range; if estimation fails, fall through."  This definition
exists only to compare the spec's classifier with the code's
`is_target_vessel`, which contains no such dimension fallback. -/
def classifier_spec (cfg : Config) (v : VesselProfile) : Bool :=
  if v.ship_type.isSome && !(cfg.dry_bulk_types.contains (v.ship_type.getD 0)) then false
  else if v.estimated_dwt.isSome then
    decide (cfg.dwt_min ≤ v.estimated_dwt.getD 0 ∧ v.estimated_dwt.getD 0 ≤ cfg.dwt_max)
  else
    match v.dimensions with
    | some d =>
        match estimate_dwt_from_dimensions d with
        | some e => decide (cfg.dwt_min ≤ e ∧ e ≤ cfg.dwt_max)
        | none => true
    | none => true

/-- Every estimate stored in the profile lies in the clamp range. -/
def DwtInv (v : VesselProfile) : Prop :=
  ∀ e, v.estimated_dwt = some e → 10000 ≤ e ∧ e ≤ 400000

/-- The stored estimate agrees with the estimator on the stored
dimensions whenever the latter produces a (truthy) value.  This holds for
every profile `process_static_data` writes, because the re-estimation
step runs on the merged dimensions. -/
def DwtConsistent (v : VesselProfile) : Prop :=
  ∀ d, v.dimensions = some d → truthy_int (estimate_dwt_from_dimensions d) = true →
    v.estimated_dwt = estimate_dwt_from_dimensions d

/-- Hull dimensions whose estimate is `10000` (length 50, width 10:
`floor(50·10·12·0.75) = 4500`, clamped up to `10000`). -/
def small_dims : Dims := ⟨some 25, some 25, some 5, some 5⟩

/-- A profile with dry-bulk ship type 70, no stored estimate, and small
hull dimensions present — the profile separating the spec's classifier
rule 3 from the code's classifier. -/
def c2_vessel : VesselProfile :=
  { empty_vessel with ship_type := some 70, dimensions := some small_dims }

/-- A concrete stored profile with non-default values and a stored
estimate, used as the prior state in witnesses. -/
def sample_vessel : VesselProfile :=
  { mmsi := "123456789", name := "EVER BULK", call_sign := "ABCD", imo_number := some 9000001,
    ship_type := some 70, dimensions := none, destination := "ROTTERDAM",
    max_draught := some 12, estimated_dwt := some 50000, last_static_update := 1 }

/-- An initial session state: empty profile store, empty buffer. -/
def initial_state : CollectorState :=
  { vessel_database := fun _ => none, collected_data := [] }

/-! ### Supporting lemmas -/

/-- `Rat.floor` (used in the executable definition) is the
mathematical floor. -/
theorem rat_floor_eq_floor (q : ℚ) : Rat.floor q = ⌊q⌋ := by
  rw [Rat.floor_def', Rat.floor_def]

/-- Any produced estimate lies in the clamp range. -/
theorem estimate_range {d : Dims} {e : Int}
    (h : estimate_dwt_from_dimensions d = some e) : 10000 ≤ e ∧ e ≤ 400000 := by
  simp only [estimate_dwt_from_dimensions] at h
  split at h
  · simp at h
  · simp only [Option.some.injEq] at h
    subst h
    constructor
    · exact le_max_left _ _
    · exact max_le (by norm_num) (min_le_left _ _)

/-- The estimator on `small_dims`: `floor(50·10·12·0.75) = 4500`,
clamped to `10000`. -/
theorem estimate_small_dims : estimate_dwt_from_dimensions small_dims = some 10000 := by
  simp only [small_dims, estimate_dwt_from_dimensions, Dims.hullLength, Dims.hullWidth,
    dwt_factor, Option.getD_some, rat_floor_eq_floor]
  norm_num

/-! ### Claim C4 -/

/-- Claim C4: the estimator returns absent when length ≤ 0 or width ≤ 0,
otherwise the floor of `length·width·12·factor` with the length-bracket
factor, clamped into `[10000, 400000]`; every produced estimate lies in
`[10000, 400000]`. -/
theorem C4_estimator_contract (d : Dims) :
    (d.hullLength ≤ 0 ∨ d.hullWidth ≤ 0 → estimate_dwt_from_dimensions d = none) ∧
    (0 < d.hullLength → 0 < d.hullWidth →
      estimate_dwt_from_dimensions d =
        some (max 10000 (min 400000
          ⌊(d.hullLength * d.hullWidth * 12 : ℚ) * dwt_factor d.hullLength⌋))) ∧
    (∀ e, estimate_dwt_from_dimensions d = some e → 10000 ≤ e ∧ e ≤ 400000) := by
  refine ⟨?_, ?_, fun e h => estimate_range h⟩
  · intro h
    simp only [estimate_dwt_from_dimensions]
    rw [if_pos h]
  · intro h1 h2
    simp only [estimate_dwt_from_dimensions, rat_floor_eq_floor]
    rw [if_neg (by omega)]

/-- Witness for C4: the degenerate-dimension rule at an all-absent dict,
the formula at `small_dims`, and the range bound at the estimate
`10000`. -/
theorem C4_witness :
    estimate_dwt_from_dimensions ⟨none, none, none, none⟩ = none ∧
    (estimate_dwt_from_dimensions small_dims).isSome = true ∧
    (10000 ≤ (10000 : Int) ∧ (10000 : Int) ≤ 400000) := by
  refine ⟨(C4_estimator_contract ⟨none, none, none, none⟩).1 (Or.inl (by decide)), ?_, ?_⟩
  · rw [(C4_estimator_contract small_dims).2.1 (by decide) (by decide)]
    rfl
  · exact (C4_estimator_contract small_dims).2.2 10000 estimate_small_dims

/-! ### Claim C2 -/

/-- Claim C2 counterexample: `c2_vessel` has an allow-set ship type, no
stored estimate, and dimensions whose (produced) estimate `10000` lies
outside `[40000, 100000]`; the spec's rule-3 classifier rejects it, but
the code's `is_target_vessel` accepts it — the code never computes an
estimate from dimensions during classification. -/
theorem C2_counterexample :
    c2_vessel.dimensions = some small_dims ∧
    estimate_dwt_from_dimensions small_dims = some 10000 ∧
    classifier_spec default_config c2_vessel = false ∧
    is_target_vessel default_config c2_vessel = true := by
  refine ⟨rfl, estimate_small_dims, ?_, by decide⟩
  simp only [classifier_spec, c2_vessel, empty_vessel, default_config, estimate_small_dims]
  decide

/-- Claim C2 (amended): the classifier never consults the hull
dimensions — its verdict is invariant under replacing the `dimensions`
field, so a profile with unknown capacity is decided by the ship-type
rule and the conservative fallback alone, regardless of dimensions;
dimension-based estimation happens only in the profile store's
static-data update. -/
theorem C2_classifier_ignores_dimensions (cfg : Config) (v : VesselProfile) (d : Option Dims) :
    is_target_vessel cfg { v with dimensions := d } = is_target_vessel cfg v := rfl

/-! ### Claim C8 -/

/-- Claim C8: a profile that is not rejected on ship type (type absent or
in the allow-set) and has no stored capacity estimate is accepted. -/
theorem C8_conservative_accept (cfg : Config) (v : VesselProfile)
    (htype : v.ship_type = none ∨ ∃ t, v.ship_type = some t ∧ t ∈ cfg.dry_bulk_types)
    (hdwt : v.estimated_dwt = none) :
    is_target_vessel cfg v = true := by
  unfold is_target_vessel
  rcases htype with h | ⟨t, ht, hmem⟩
  · rw [h, hdwt]
    rfl
  · rw [ht, hdwt]
    simp only [truthy_int, Bool.and_eq_true, bne_iff_ne, ne_eq]
    simp [truthy_int]
    exact Or.inr hmem

/-- Witness for C8: the stub profile created by a position event seen
before any static data is accepted. -/
theorem C8_witness :
    is_target_vessel default_config (stub_vessel "123456789" "Unknown") = true :=
  C8_conservative_accept default_config (stub_vessel "123456789" "Unknown") (Or.inl rfl) rfl

/-! ### Claim C9 -/

/-- Claim C9: the classifier treats ship-type `0` and estimated capacity
`0` as absent — replacing either `some 0` by `none` does not change the
verdict, and a profile with both zeros is accepted by the conservative
rule. -/
theorem C9_zero_treated_as_absent (cfg : Config) (v : VesselProfile) :
    (v.ship_type = some 0 →
      is_target_vessel cfg v = is_target_vessel cfg { v with ship_type := none }) ∧
    (v.estimated_dwt = some 0 →
      is_target_vessel cfg v = is_target_vessel cfg { v with estimated_dwt := none }) ∧
    (v.ship_type = some 0 → v.estimated_dwt = some 0 → is_target_vessel cfg v = true) := by
  refine ⟨fun h => ?_, fun h => ?_, fun h1 h2 => ?_⟩
  · simp [is_target_vessel, truthy_int, h]
  · simp [is_target_vessel, truthy_int, h]
  · simp [is_target_vessel, truthy_int, h1, h2]

/-- Witness for C9 at a profile carrying ship-type `0` and estimate `0`. -/
theorem C9_witness :
    is_target_vessel default_config
      { empty_vessel with ship_type := some 0, estimated_dwt := some 0 } = true :=
  (C9_zero_treated_as_absent default_config
    { empty_vessel with ship_type := some 0, estimated_dwt := some 0 }).2.2 rfl rfl

/-! ### The shape of `update_vessel` -/

/-- Normal form of `update_vessel`: the ordinary field merges, plus the
dimension-conditional estimate overwrite. -/
theorem update_vessel_eq (old : VesselProfile) (m : String) (s : StaticMsg) (now : Nat) :
    update_vessel old m s now =
      { mmsi := m
        name := str_merge s.name old.name
        call_sign := str_merge s.callSign old.call_sign
        imo_number := int_merge s.imoNumber old.imo_number
        ship_type := int_merge s.shipType old.ship_type
        dimensions := merged_dims s old
        destination := str_merge s.destination old.destination
        max_draught := rat_merge s.maximumStaticDraught old.max_draught
        estimated_dwt :=
          match merged_dims s old with
          | some d =>
              if truthy_int (estimate_dwt_from_dimensions d) then estimate_dwt_from_dimensions d
              else old.estimated_dwt
          | none => old.estimated_dwt
        last_static_update := now } := by
  simp only [update_vessel]
  cases h : merged_dims s old with
  | none => rfl
  | some d =>
      by_cases ht : truthy_int (estimate_dwt_from_dimensions d) <;>
        simp [ht]

/-- The estimate field of an updated profile. -/
theorem update_vessel_estimated_dwt (old : VesselProfile) (m : String) (s : StaticMsg)
    (now : Nat) :
    (update_vessel old m s now).estimated_dwt =
      match merged_dims s old with
      | some d =>
          if truthy_int (estimate_dwt_from_dimensions d) then estimate_dwt_from_dimensions d
          else old.estimated_dwt
      | none => old.estimated_dwt := by
  rw [update_vessel_eq]

/-! ### Claim C10 -/

/-- Claim C10: estimates are clamped into `[10000, 400000]`; the
static-data update preserves the range invariant on the stored estimate,
and never clears a stored estimate. -/
theorem C10_stored_dwt_invariant (old : VesselProfile) (m : String) (s : StaticMsg) (now : Nat) :
    (∀ d e, estimate_dwt_from_dimensions d = some e → 10000 ≤ e ∧ e ≤ 400000) ∧
    (DwtInv old → DwtInv (update_vessel old m s now)) ∧
    (old.estimated_dwt.isSome = true → (update_vessel old m s now).estimated_dwt.isSome = true) := by
  refine ⟨fun d e h => estimate_range h, fun hinv e he => ?_, fun hs => ?_⟩
  · rw [update_vessel_estimated_dwt] at he
    cases hmd : merged_dims s old with
    | none => rw [hmd] at he; exact hinv e he
    | some d =>
        rw [hmd] at he
        dsimp only at he
        by_cases ht : truthy_int (estimate_dwt_from_dimensions d)
        · rw [if_pos ht] at he
          exact estimate_range he
        · rw [if_neg ht] at he
          exact hinv e he
  · rw [update_vessel_estimated_dwt]
    cases hmd : merged_dims s old with
    | none => exact hs
    | some d =>
        dsimp only
        by_cases ht : truthy_int (estimate_dwt_from_dimensions d)
        · rw [if_pos ht]
          cases hd : estimate_dwt_from_dimensions d with
          | none => rw [hd] at ht; simp [truthy_int] at ht
          | some x => rfl
        · rw [if_neg ht]
          exact hs

/-- Witness for C10: the range bound at the concrete estimate `10000`,
and invariant preservation and non-clearing across an all-absent
static-data event on `sample_vessel` (stored estimate `50000`). -/
theorem C10_witness :
    (10000 ≤ (10000 : Int) ∧ (10000 : Int) ≤ 400000) ∧
    DwtInv (update_vessel sample_vessel "123456789" empty_static 7) ∧
    (update_vessel sample_vessel "123456789" empty_static 7).estimated_dwt.isSome = true := by
  obtain ⟨h1, h2, h3⟩ := C10_stored_dwt_invariant sample_vessel "123456789" empty_static 7
  refine ⟨h1 small_dims 10000 estimate_small_dims, h2 ?_, h3 rfl⟩
  intro e he
  simp only [sample_vessel, Option.some.injEq] at he
  omega

/-! ### Claim C3 -/

/-- A blank incoming string (absent, empty, or whitespace) never
overwrites. -/
theorem str_merge_blank {o : Option String} (h : py_strip (o.getD "") = "") (stored : String) :
    str_merge o stored = stored := by
  simp [str_merge, h]

/-- A falsy incoming integer (absent or zero) never overwrites. -/
theorem int_merge_falsy {o : Option Int} (h : truthy_int o = false) (stored : Option Int) :
    int_merge o stored = stored := by
  simp [int_merge, h]

/-- A falsy incoming float (absent or zero) never overwrites. -/
theorem rat_merge_falsy {o : Option ℚ} (h : truthy_rat o = false) (stored : Option ℚ) :
    rat_merge o stored = stored := by
  simp [rat_merge, h]

/-- Claim C3: field by field, a static-data event whose incoming
sub-field is absent or empty (blank string, falsy number, absent
dimensions dict) leaves the stored value unchanged; the derived
`estimated_dwt` is likewise unchanged when the incoming dimensions are
absent, on any profile whose stored estimate is consistent with its
stored dimensions (which `update_vessel` itself guarantees, see
`update_vessel_consistent`). -/
theorem C3_partial_update_never_erases (old : VesselProfile) (m : String) (s : StaticMsg)
    (now : Nat) :
    (py_strip (s.name.getD "") = "" → (update_vessel old m s now).name = old.name) ∧
    (py_strip (s.callSign.getD "") = "" → (update_vessel old m s now).call_sign = old.call_sign) ∧
    (truthy_int s.imoNumber = false → (update_vessel old m s now).imo_number = old.imo_number) ∧
    (truthy_int s.shipType = false → (update_vessel old m s now).ship_type = old.ship_type) ∧
    (s.dimension = none → (update_vessel old m s now).dimensions = old.dimensions) ∧
    (py_strip (s.destination.getD "") = "" →
      (update_vessel old m s now).destination = old.destination) ∧
    (truthy_rat s.maximumStaticDraught = false →
      (update_vessel old m s now).max_draught = old.max_draught) ∧
    (s.dimension = none → DwtConsistent old →
      (update_vessel old m s now).estimated_dwt = old.estimated_dwt) := by
  rw [update_vessel_eq]
  refine ⟨fun h => str_merge_blank h _, fun h => str_merge_blank h _, fun h => int_merge_falsy h _,
    fun h => int_merge_falsy h _, fun h => ?_, fun h => str_merge_blank h _,
    fun h => rat_merge_falsy h _, fun h hcons => ?_⟩
  · simp [merged_dims, h]
  · have hmd : merged_dims s old = old.dimensions := by simp [merged_dims, h]
    dsimp only
    rw [hmd]
    cases hd : old.dimensions with
    | none => rfl
    | some d =>
        dsimp only
        by_cases ht : truthy_int (estimate_dwt_from_dimensions d)
        · rw [if_pos ht, hcons d hd ht]
        · rw [if_neg ht]

/-- `update_vessel` re-establishes estimate/dimension consistency: after
any static-data merge, if the stored dimensions produce a truthy
estimate, the stored estimate is that estimate. -/
theorem update_vessel_consistent (old : VesselProfile) (m : String) (s : StaticMsg) (now : Nat) :
    DwtConsistent (update_vessel old m s now) := by
  intro d hd ht
  rw [update_vessel_eq] at hd
  dsimp only at hd
  rw [update_vessel_estimated_dwt, hd]
  dsimp only
  rw [if_pos ht]

/-- Witness for C3: every hypothesis discharged at `sample_vessel`
(non-default name, call sign, IMO, type, destination, draught, and a
stored estimate) against the all-absent static event. -/
theorem C3_witness :
    (update_vessel sample_vessel "123456789" empty_static 5).name = sample_vessel.name ∧
    (update_vessel sample_vessel "123456789" empty_static 5).call_sign =
      sample_vessel.call_sign ∧
    (update_vessel sample_vessel "123456789" empty_static 5).imo_number =
      sample_vessel.imo_number ∧
    (update_vessel sample_vessel "123456789" empty_static 5).ship_type =
      sample_vessel.ship_type ∧
    (update_vessel sample_vessel "123456789" empty_static 5).dimensions =
      sample_vessel.dimensions ∧
    (update_vessel sample_vessel "123456789" empty_static 5).destination =
      sample_vessel.destination ∧
    (update_vessel sample_vessel "123456789" empty_static 5).max_draught =
      sample_vessel.max_draught ∧
    (update_vessel sample_vessel "123456789" empty_static 5).estimated_dwt =
      sample_vessel.estimated_dwt := by
  obtain ⟨h1, h2, h3, h4, h5, h6, h7, h8⟩ :=
    C3_partial_update_never_erases sample_vessel "123456789" empty_static 5
  exact ⟨h1 (by decide), h2 (by decide), h3 rfl, h4 rfl, h5 rfl, h6 (by decide), h7 rfl,
    h8 rfl (fun d hd _ => by simp [sample_vessel] at hd)⟩

/-! ### Claim C5 -/

/-- Claim C5: a position event whose latitude lies outside `[-90, 90]`
or whose longitude lies outside `[-180, 180]` never reaches the session
accumulation buffer — the buffer after `process_position_report` is the
buffer before it. -/
theorem C5_invalid_coordinates_never_buffered (cfg : Config) (st : CollectorState)
    (pos : PositionMsg) (meta : Metadata) (now : Nat) (lat lon : ℚ)
    (hlat : pos.latitude = some lat) (hlon : pos.longitude = some lon)
    (hout : 90 < |lat| ∨ 180 < |lon|) :
    (process_position_report cfg st pos meta now).collected_data = st.collected_data := by
  unfold process_position_report
  split
  · rfl
  next mmsi hm =>
    by_cases ht :
        is_target_vessel cfg
          ((st.vessel_database mmsi).getD (stub_vessel mmsi (meta.shipName.getD "Unknown")))
    · simp [ht, hlat, hlon, hout]
    · simp [ht]

/-- Witness for C5: Scenario B — an unseen identifier reports
coordinates `(95, 10)`; the buffer stays empty. -/
theorem C5_witness :
    (process_position_report default_config initial_state
      { userID := some 123456789, latitude := some 95, longitude := some 10, sog := none,
        cog := none, trueHeading := none, navigationalStatus := none, rateOfTurn := none,
        positionAccuracy := none }
      { mmsi := none, shipName := none } 0).collected_data = initial_state.collected_data :=
  C5_invalid_coordinates_never_buffered default_config initial_state
    { userID := some 123456789, latitude := some 95, longitude := some 10, sog := none,
      cog := none, trueHeading := none, navigationalStatus := none, rateOfTurn := none,
      positionAccuracy := none }
    { mmsi := none, shipName := none } 0 95 10 rfl rfl (Or.inl (by decide))

/-! ### Dedup-key counting -/

theorem count_key_cons (r : Record) (rows : List Record) (k : String × Nat × ℚ × ℚ) :
    count_key (r :: rows) k = count_key rows k + if rec_key r = k then 1 else 0 := by
  simp [count_key, List.countP_cons]

theorem count_key_append (a b : List Record) (k : String × Nat × ℚ × ℚ) :
    count_key (a ++ b) k = count_key a k + count_key b k := by
  simp [count_key]

theorem count_key_eq_zero {rows : List Record} {k : String × Nat × ℚ × ℚ} :
    count_key rows k = 0 ↔ ∀ r ∈ rows, rec_key r ≠ k := by
  simp [count_key]

theorem one_le_count_key {rows : List Record} {r : Record} (h : r ∈ rows) :
    1 ≤ count_key rows (rec_key r) := by
  have : 0 < count_key rows (rec_key r) := by
    simp only [count_key, List.countP_pos_iff]
    exact ⟨r, h, by simp⟩
  omega

theorem count_key_le_one_of_distinct {rows : List Record} (hd : KeysDistinct rows)
    (k : String × Nat × ℚ × ℚ) : count_key rows k ≤ 1 := by
  induction rows with
  | nil => simp [count_key]
  | cons r rs ih =>
      rw [KeysDistinct, List.map_cons, List.nodup_cons] at hd
      rw [count_key_cons]
      by_cases hk : rec_key r = k
      · have h0 : count_key rs k = 0 := by
          rw [count_key_eq_zero]
          intro s hs heq
          exact hd.1 (List.mem_map.mpr ⟨s, hs, by rw [heq, hk]⟩)
        simp [hk, h0]
      · simpa [hk] using ih hd.2

theorem count_key_eq_one_of_mem {rows : List Record} {r : Record} (hd : KeysDistinct rows)
    (h : r ∈ rows) : count_key rows (rec_key r) = 1 :=
  le_antisymm (count_key_le_one_of_distinct hd _) (one_le_count_key h)

/-! ### The merge indicator and the aligned mask -/

theorem merge_indicator_cons (ex : List Record) (r : Record) (rs : List Record) :
    merge_indicator ex (r :: rs) =
      (if count_key ex (rec_key r) = 0 then [true]
       else List.replicate (count_key ex (rec_key r)) false) ++ merge_indicator ex rs := by
  simp [merge_indicator]

/-- A buffer row whose key is absent from the store survives the mask. -/
theorem truly_new_cons_absent {ex : List Record} {r : Record} (rs : List Record)
    (h : count_key ex (rec_key r) = 0) :
    truly_new ex (r :: rs) = r :: truly_new ex rs := by
  simp [truly_new, merge_indicator_cons, h]

/-- A buffer row whose key occurs exactly once in the store contributes a
single `'both'` row, and the mask drops it. -/
theorem truly_new_cons_matched_one {ex : List Record} {r : Record} (rs : List Record)
    (h : count_key ex (rec_key r) = 1) :
    truly_new ex (r :: rs) = truly_new ex rs := by
  simp [truly_new, merge_indicator_cons, h]

/-- Against a store with pairwise-distinct keys the aligned mask computes
exactly the membership filter. -/
theorem truly_new_filter {ex : List Record} (hex : KeysDistinct ex) (buf : List Record) :
    truly_new ex buf = buf.filter (fun r => count_key ex (rec_key r) == 0) := by
  induction buf with
  | nil => rfl
  | cons r rs ih =>
      rcases Nat.le_one_iff_eq_zero_or_eq_one.mp
        (count_key_le_one_of_distinct hex (rec_key r)) with h | h
      · rw [truly_new_cons_absent rs h, ih, List.filter_cons]
        simp [h]
      · rw [truly_new_cons_matched_one rs h, ih, List.filter_cons]
        simp [h]

/-- If every buffer row's key occurs exactly once in the store, nothing
is appended. -/
theorem truly_new_nil_of_all_matched {ex : List Record} (buf : List Record)
    (h : ∀ r ∈ buf, count_key ex (rec_key r) = 1) :
    truly_new ex buf = [] := by
  induction buf with
  | nil => rfl
  | cons r rs ih =>
      rw [truly_new_cons_matched_one rs (h r (by simp))]
      exact ih fun s hs => h s (by simp [hs])

/-! ### The shape of `save_data` -/

theorem save_data_cons_absent (b : Record) (bs : List Record) :
    save_data (b :: bs) CsvState.absent = (CsvState.ok (b :: bs), false) := rfl

theorem save_data_cons_corrupt (b : Record) (bs : List Record) :
    save_data (b :: bs) CsvState.corrupt = (CsvState.ok (b :: bs), true) := rfl

theorem save_data_cons_ok (b : Record) (bs ex : List Record) :
    save_data (b :: bs) (CsvState.ok ex) =
      (CsvState.ok (ex ++ truly_new ex (b :: bs)), false) := by
  show (if 0 < (truly_new ex (b :: bs)).length then
      (CsvState.ok (ex ++ truly_new ex (b :: bs)), false)
    else (CsvState.ok ex, false)) = _
  by_cases h0 : 0 < (truly_new ex (b :: bs)).length
  · rw [if_pos h0]
  · rw [if_neg h0]
    have he : truly_new ex (b :: bs) = [] := by
      cases hnn : truly_new ex (b :: bs) with
      | nil => rfl
      | cons x xs => rw [hnn] at h0; simp at h0
    rw [he, List.append_nil]

/-- A merge against a store already holding every buffer key exactly
once is a complete no-op on the store. -/
theorem save_data_all_matched {rows : List Record} (buffer : List Record)
    (h : ∀ r ∈ buffer, count_key rows (rec_key r) = 1) :
    save_data buffer (CsvState.ok rows) = (CsvState.ok rows, false) := by
  cases buffer with
  | nil => rfl
  | cons b bs =>
      rw [save_data_cons_ok, truly_new_nil_of_all_matched _ h, List.append_nil]

/-- After the first merge of a distinct-key buffer into a distinct-key
store, every buffer key occurs exactly once in the store. -/
theorem count_key_after_merge {ex buf : List Record} {r : Record} (hex : KeysDistinct ex)
    (hbuf : KeysDistinct buf) (hr : r ∈ buf) :
    count_key (ex ++ buf.filter (fun s => count_key ex (rec_key s) == 0)) (rec_key r) = 1 := by
  rw [count_key_append]
  rcases Nat.le_one_iff_eq_zero_or_eq_one.mp
    (count_key_le_one_of_distinct hex (rec_key r)) with h0 | h1
  · rw [h0, Nat.zero_add]
    have heq : count_key (buf.filter fun s => count_key ex (rec_key s) == 0) (rec_key r)
        = count_key buf (rec_key r) := by
      unfold count_key
      rw [List.countP_filter]
      refine List.countP_congr fun s _ => ?_
      by_cases hsr : rec_key s = rec_key r
      · simp only [hsr, h0]
        simp
        exact count_key_eq_zero.mp h0
      · simp [hsr]
    rw [heq]
    exact count_key_eq_one_of_mem hbuf hr
  · rw [h1]
    have heq : count_key (buf.filter fun s => count_key ex (rec_key s) == 0) (rec_key r) = 0 := by
      rw [count_key_eq_zero]
      intro s hs hkey
      rw [List.mem_filter] at hs
      have h2 := hs.2
      rw [hkey] at h2
      simp only [beq_iff_eq] at h2
      omega
    omega

/-! ### Claim C1 -/

/-- Claim C1 counterexample: against a prior store holding the same key
twice, merging a buffer with pairwise-distinct keys twice appends a row
the second time (the misaligned boolean mask selects an
already-appended row), so the final counts of one and two merges differ
(3 vs 4). -/
theorem C1_counterexample :
    KeysDistinct [sample_record "a" 0, sample_record "x" 0, sample_record "y" 0] ∧
    csv_count (save_data [sample_record "a" 0, sample_record "x" 0, sample_record "y" 0]
      (save_data [sample_record "a" 0, sample_record "x" 0, sample_record "y" 0]
        (CsvState.ok [sample_record "a" 0, sample_record "a" 0])).1).1 ≠
    csv_count (save_data [sample_record "a" 0, sample_record "x" 0, sample_record "y" 0]
      (CsvState.ok [sample_record "a" 0, sample_record "a" 0])).1 := by
  constructor
  · decide
  · decide

/-- Claim C1 (amended): merging the same distinct-key buffer twice
yields the same final durable state and count as merging it once — the
second merge appends zero rows — provided the pre-existing readable
store (if any) also has pairwise-distinct dedup keys. -/
theorem C1_merge_idempotent (buffer : List Record) (csv : CsvState)
    (hbuf : KeysDistinct buffer) (hcsv : CsvKeysDistinct csv) :
    save_data buffer (save_data buffer csv).1 = ((save_data buffer csv).1, false) ∧
    csv_count (save_data buffer (save_data buffer csv).1).1 = csv_count (save_data buffer csv).1
    := by
  have main : save_data buffer (save_data buffer csv).1 = ((save_data buffer csv).1, false) := by
    cases buffer with
    | nil => rfl
    | cons b bs =>
        cases csv with
        | absent =>
            rw [save_data_cons_absent]
            exact save_data_all_matched _ fun r hr => count_key_eq_one_of_mem hbuf hr
        | corrupt =>
            rw [save_data_cons_corrupt]
            exact save_data_all_matched _ fun r hr => count_key_eq_one_of_mem hbuf hr
        | ok ex =>
            have hex : KeysDistinct ex := hcsv
            rw [save_data_cons_ok, truly_new_filter hex]
            exact save_data_all_matched _ fun r hr => count_key_after_merge hex hbuf hr
  exact ⟨main, by rw [main]⟩

/-- Witness for C1 (amended) at a one-row buffer and an absent store. -/
theorem C1_witness :
    KeysDistinct [sample_record "a" 0] ∧
    CsvKeysDistinct CsvState.absent ∧
    save_data [sample_record "a" 0] (save_data [sample_record "a" 0] CsvState.absent).1 =
      ((save_data [sample_record "a" 0] CsvState.absent).1, false) :=
  ⟨by decide, trivial,
    (C1_merge_idempotent [sample_record "a" 0] CsvState.absent (by decide) trivial).1⟩

/-! ### Claim C6 -/

/-- Claim C6 counterexample: two observations with the same dedup key in
one buffer, merged against a not-yet-created store, produce two rows,
not one. -/
theorem C6_counterexample :
    csv_count (save_data [sample_record "a" 0, sample_record "a" 0] CsvState.absent).1 ≠ 1 := by
  decide

/-- Claim C6 (amended): against an absent store the whole buffer is
written verbatim — a within-batch duplicate pair yields two rows;
deduplication applies only against existing durable data, never inside
the new batch. -/
theorem C6_within_batch_duplicates_kept (r : Record) :
    save_data [r, r] CsvState.absent = (CsvState.ok [r, r], false) := rfl

/-! ### Claim C7 -/

/-- Claim C7: with a non-empty buffer and an existing-but-unreadable
store, the merge does not fail: it writes the buffer as the fresh store
content and records the degradation warning. -/
theorem C7_corrupt_store_degrades (buffer : List Record) (hb : buffer ≠ []) :
    save_data buffer CsvState.corrupt = (CsvState.ok buffer, true) := by
  cases buffer with
  | nil => exact absurd rfl hb
  | cons b bs => rfl

/-- Witness for C7 at a one-row buffer. -/
theorem C7_witness :
    save_data [sample_record "a" 0] CsvState.corrupt =
      (CsvState.ok [sample_record "a" 0], true) :=
  C7_corrupt_store_degrades [sample_record "a" 0] (by decide)

end AIS
